import Mathlib

/-!
Verification of the XoptYmiZ content-to-knowledge-graph ingestion pipeline.

Shallow embedding of the pipeline implemented in
public/Knowledge Graph Engine.js (the XoptYmiZContentProcessor and the
XoptYmiZKnowledgeGraph store) and of determineRelationshipType from
api/process-url.js.  JavaScript numbers are modelled as exact rationals,
JavaScript arrays as lists, the external OpenAI call and the network fetch
as explicit parameters, Math.random draws as an explicit rand parameter,
and the Neo4j transaction of storeProcessedContent as a buffered list of
statement applications with an explicit per-statement failure oracle.
Timestamps (datetime(), toISOString()) carry no information any claim
depends on; they are either omitted from node records or passed in as an
explicit now parameter.  String hashing (md5 and sha256 ids) is modelled by
the normalized input text itself, treating the hash as injective.
-/

namespace XoptYmiZ

/-! Basic character and string helpers.  The JavaScript string methods used
by the source (toLowerCase, toUpperCase, trim, indexOf, replace) are
modelled on the character list of the string, restricted to ASCII. -/

/-- ASCII lower-casing of one character (String.prototype.toLowerCase). -/
def charLower (c : Char) : Char :=
  if 'A' ≤ c ∧ c ≤ 'Z' then Char.ofNat (c.toNat + 32) else c

/-- ASCII upper-casing of one character (String.prototype.toUpperCase). -/
def charUpper (c : Char) : Char :=
  if 'a' ≤ c ∧ c ≤ 'z' then Char.ofNat (c.toNat - 32) else c

/-- JavaScript whitespace as matched by the regex class \s (ASCII cases). -/
def isJsWs (c : Char) : Bool :=
  c == ' ' || c == '\t' || c == '\n' || c == '\r'

/-- Model of String.prototype.toLowerCase. -/
def toLowerStr (s : String) : String := ⟨s.data.map charLower⟩

/-- Model of String.prototype.toUpperCase. -/
def toUpperStr (s : String) : String := ⟨s.data.map charUpper⟩

/-- Model of String.prototype.trim. -/
def trimStr (s : String) : String :=
  ⟨((s.data.dropWhile isJsWs).reverse.dropWhile isJsWs).reverse⟩

/-- Decidable check that one character list is an initial segment of
another. -/
def listPrefixOf : List Char → List Char → Bool
  | [], _ => true
  | _ :: _, [] => false
  | a :: as, b :: bs => a == b && listPrefixOf as bs

/-- All positions at which needle occurs in hay, overlapping occurrences
included.  This models the indexOf scan of findEntityMentions, which
advances one character after each hit; for an empty needle the source scan
does not terminate, a case no caller produces. -/
def strIndexes (needle hay : List Char) : List Nat :=
  (List.range hay.length).filter (fun i => listPrefixOf needle (hay.drop i))

/-- Whether sub occurs in s (String.prototype.includes). -/
def containsSub (s sub : String) : Bool :=
  !(strIndexes sub.data s.data).isEmpty

/-- Replace the first occurrence of pat (String.prototype.replace with a
string argument replaces only the first match). -/
def replaceFirstAux (pat rep : List Char) : List Char → List Char
  | [] => []
  | c :: cs =>
    if listPrefixOf pat (c :: cs) then rep ++ (c :: cs).drop pat.length
    else c :: replaceFirstAux pat rep cs

/-- String wrapper for replaceFirstAux. -/
def replaceFirst (s pat rep : String) : String :=
  ⟨replaceFirstAux pat.data rep.data s.data⟩

/-! JavaScript or-defaults.  The source guards many fields with the pattern
value or default; under JavaScript truthiness the number 0, the empty
string and undefined all select the default. -/

/-- JavaScript truthiness of an optional string: undefined and the empty
string are falsy. -/
def jsTruthy : Option String → Bool
  | none => false
  | some s => s != ""

/-- JavaScript or-default on a number: 0 selects the default. -/
def jsOrQ (x d : ℚ) : ℚ := if x = 0 then d else x

/-- JavaScript or-default on a string: the empty string selects the
default. -/
def jsOrS (s d : String) : String := if s = "" then d else s

/-- JavaScript or-default on an optional string. -/
def jsOrOS (s : Option String) (d : String) : String :=
  match s with
  | none => d
  | some s => jsOrS s d

/-- JavaScript or-default on a natural count (n or 1), as in the guard
relationships.length or 1 of calculateOverallConfidence. -/
def jsOrNatOne (n : Nat) : Nat := if n = 0 then 1 else n

/-- Stable insertion used by stableSort. -/
def sortInsert (le : α → α → Bool) (x : α) : List α → List α
  | [] => [x]
  | y :: ys => if le x y then x :: y :: ys else y :: sortInsert le x ys

/-- Stable sort, modelling JavaScript Array.prototype.sort with a comparator
(the JavaScript sort is specified stable). -/
def stableSort (le : α → α → Bool) : List α → List α
  | [] => []
  | x :: xs => sortInsert le x (stableSort le xs)

/-! Annotator data model.  Entity and relationship records as produced by
the content processor. -/

/-- Entity record of the annotator (the objects built by the extraction
methods of the content processor and consumed by the graph store). -/
structure Entity where
  text : String
  type : String
  importance : ℚ
  description : String
  aliases : List String
  confidence : ℚ
  source : Option String := none
deriving Repr, DecidableEq

/-- Relationship record of the annotator.  The source fields from and to are
named fromText and toText here because from is reserved in Lean. -/
structure Relationship where
  fromText : String
  toText : String
  type : String
  strength : ℚ
  confidence : ℚ
  description : String
  evidence : List String
deriving Repr, DecidableEq, Inhabited

/-- Output of analyzeContentStructure: the phrase lists that the compromise
library classifies out of the text.  The extraction methods only read the
people, organizations, places and topics fields; the library call itself is
external, so analyses are taken as inputs. -/
structure ContentAnalysis where
  topics : List String
  people : List String
  places : List String
  organizations : List String
  sentences : List String
  nouns : List String
  verbs : List String
  adjectives : List String
deriving Repr, DecidableEq

/-- Normalized content produced by the extractor (the record returned by
extractFromHTML and processRawText; the extractedAt timestamp is
omitted). -/
structure NormalizedContent where
  title : String
  text : String
  cleaned : String
  excerpt : String
  wordCount : Nat
  sentenceCount : Nat
  readability : ℚ
deriving Repr, DecidableEq

/-! The extractor (source: extractCleanContent, processRawText,
preprocessText, calculateReadabilityScore of the content processor). -/

/-- Characters kept by the cleanup regex of preprocessText, which removes
everything outside the word characters, whitespace and - . , ! ? ; :. -/
def isKeptChar (c : Char) : Bool :=
  c.isAlphanum || c == '_' || isJsWs c || c == '-' || c == '.' || c == ',' ||
  c == '!' || c == '?' || c == ';' || c == ':'

/-- Replace every maximal whitespace run by one space, modelling
text.replace with the global regex of one or more whitespace characters. -/
def collapseWs (cs : List Char) : List Char :=
  (cs.foldl (fun (st : List Char × Bool) c =>
    if isJsWs c then (if st.2 then st else (st.1 ++ [' '], true))
    else (st.1 ++ [c], false)) ([], false)).1

/-- Source: preprocessText — collapse whitespace, drop the characters the
cleanup regex removes, then trim. -/
def preprocessText (text : String) : String :=
  trimStr ⟨(collapseWs text.data).filter isKeptChar⟩

/-- Word characters recognized by the WordTokenizer of the natural library
(ASCII letters, digits and underscore; the Cyrillic range of the library
regex is omitted). -/
def isTokenChar (c : Char) : Bool := c.isAlphanum || c == '_'

/-- Source: this.tokenizer.tokenize — the natural WordTokenizer splits on
runs of non-word characters and discards empty pieces. -/
def tokenizeWords (s : String) : List String :=
  ((s.data.splitOnP (fun c => !isTokenChar c)).filter
    (fun w => !w.isEmpty)).map (fun w => (⟨w⟩ : String))

/-- Sentence-ending characters of the split regex of the source. -/
def isSentenceEnd (c : Char) : Bool := c == '.' || c == '!' || c == '?'

/-- Source: cleaned.split on runs of . ! ? keeping only pieces with
non-whitespace content.  Splitting on single terminator characters and then
filtering blank pieces yields the same kept pieces as the grouped regex of
the source. -/
def splitSentences (s : String) : List String :=
  ((s.data.splitOnP isSentenceEnd).map (fun w => (⟨w⟩ : String))).filter
    (fun t => trimStr t != "")

/-- Source: calculateReadabilityScore of the content processor. -/
def calculateReadabilityScore (words sentences : List String) : ℚ :=
  if sentences.length = 0 then 0
  else
    let avgWordsPerSentence : ℚ := (words.length : ℚ) / (sentences.length : ℚ)
    max 0 (100 - avgWordsPerSentence * 2)

/-- Source: processRawText of the content processor. -/
def processRawText (text title : String) : NormalizedContent :=
  let cleaned := preprocessText text
  let words := tokenizeWords cleaned
  let sentences := splitSentences cleaned
  { title := title
    text := text
    cleaned := cleaned
    excerpt := (⟨text.data.take 200⟩ : String) ++ "..."
    wordCount := words.length
    sentenceCount := sentences.length
    readability := calculateReadabilityScore words sentences }

/-- Errors of the extractor.  The invalid-input error is the one thrown at
the end of extractCleanContent; fetch and html failures wrap the messages
of the url fetch and the Readability parse. -/
inductive ExtractionError where
  | invalidInput : ExtractionError
  | fetchFailed : String → ExtractionError
  | htmlFailed : String → ExtractionError
deriving Repr, DecidableEq

/-- Input of the extractor: an object that may carry url, html, text and
title fields. -/
structure InputContent where
  url : Option String := none
  html : Option String := none
  text : Option String := none
  title : Option String := none
deriving Repr, DecidableEq

/-- Source: extractCleanContent — branch on the JavaScript truthiness of
input.url, input.html and input.text in that order; the network fetch and
the Readability html parse are external and passed in as oracles whose
failures surface as the fetch and html errors of the source.  When all
three fields are absent or empty the invalid-input error is thrown. -/
def extractCleanContent (fetchURL : String → Except String NormalizedContent)
    (parseHTML : String → Except String NormalizedContent)
    (input : InputContent) : Except ExtractionError NormalizedContent :=
  if jsTruthy input.url then
    match fetchURL (input.url.getD "") with
    | .ok nc => .ok nc
    | .error m => .error (.fetchFailed m)
  else if jsTruthy input.html then
    match parseHTML (input.html.getD "") with
    | .ok nc => .ok nc
    | .error m => .error (.htmlFailed m)
  else if jsTruthy input.text then
    .ok (processRawText (input.text.getD "") (jsOrOS input.title "Untitled"))
  else .error .invalidInput

/-! The annotator: multi-method entity extraction (source: extractEntities,
extractEntitiesWithNLP, extractEntitiesWithPatterns,
mergeAndDeduplicateEntities, extractEntitiesFallback). -/

/-- Configuration of the content processor with the defaults of the
constructor. -/
structure ProcessorConfig where
  maxTokens : Nat := 8000
  minEntityImportance : ℚ := 6
  processingTimeout : Nat := 30000
  retryAttempts : Nat := 3
deriving Repr, DecidableEq

/-- Source: extractEntitiesWithNLP — people, organizations, places and
topics from the structural analysis become typed entities at the fixed
importance and confidence constants of the source. -/
def extractEntitiesWithNLP (analysis : ContentAnalysis) : List Entity :=
  (analysis.people.map (fun person =>
    { text := person, type := "PERSON", importance := 7,
      description := "Person mentioned in content: " ++ person, aliases := [],
      confidence := 8/10, source := some "nlp" })) ++
  (analysis.organizations.map (fun org =>
    { text := org, type := "ORGANIZATION", importance := 7,
      description := "Organization mentioned: " ++ org, aliases := [],
      confidence := 8/10, source := some "nlp" })) ++
  (analysis.places.map (fun place =>
    { text := place, type := "LOCATION", importance := 6,
      description := "Location mentioned: " ++ place, aliases := [],
      confidence := 3/4, source := some "nlp" })) ++
  (analysis.topics.map (fun topic =>
    { text := topic, type := "CONCEPT", importance := 6,
      description := "Key topic: " ++ topic, aliases := [],
      confidence := 7/10, source := some "nlp" }))

/-- Characters of the email alphabet of the email regex of the source. -/
def isEmailChar (c : Char) : Bool :=
  c.isAlphanum || c == '.' || c == '_' || c == '%' || c == '+' || c == '-' ||
  c == '@'

/-- Shape check for an email candidate: local@domain with a final alphabetic
segment of length at least two, modelling the tail of the email regex. -/
def looksLikeEmail (s : String) : Bool :=
  match s.data.splitOnP (fun c => c == '@') with
  | [l, d] =>
    let segs := d.splitOnP (fun c => c == '.')
    !l.isEmpty && decide (2 ≤ segs.length) && segs.all (fun seg => !seg.isEmpty) &&
      decide (2 ≤ (segs.getLastD []).length) &&
      (segs.getLastD []).all (fun c => c.isAlpha)
  | _ => false

/-- Models the global email regex scan: maximal runs of email-alphabet
characters that have the email shape. -/
def emailMatches (text : String) : List String :=
  (((text.data.splitOnP (fun c => !isEmailChar c)).filter
    (fun w => !w.isEmpty)).map (fun w => (⟨w⟩ : String))).filter looksLikeEmail

/-- Characters that terminate a url match in the url regex of the source. -/
def urlStopChar (c : Char) : Bool :=
  isJsWs c || c == '<' || c == '>' || c == '"'

/-- Models the global url regex scan together with the domain capture of the
source: for each maximal run not containing a stop character that starts
with a scheme marker, the pair of the captured domain (the text up to the
first slash) and the full match. -/
def urlMatches (text : String) : List (String × String) :=
  (((text.data.splitOnP urlStopChar).filter (fun w => !w.isEmpty)).map
    (fun w => (⟨w⟩ : String))).filterMap (fun tok =>
      if listPrefixOf "https://".data tok.data then
        let dom : String := ⟨(tok.data.drop 8).takeWhile (fun c => c != '/')⟩
        if dom != "" then some (dom, tok) else none
      else if listPrefixOf "http://".data tok.data then
        let dom : String := ⟨(tok.data.drop 7).takeWhile (fun c => c != '/')⟩
        if dom != "" then some (dom, tok) else none
      else none)

/-- The fixed technology term list of the source. -/
def techTerms : List String :=
  ["API", "REST", "GraphQL", "JavaScript", "Python", "React", "Vue",
   "Angular", "Node.js", "MongoDB", "PostgreSQL", "Redis", "Docker",
   "Kubernetes"]

/-- Source: extractEntitiesWithPatterns — emails, referenced website domains
and technology terms found in the text. -/
def extractEntitiesWithPatterns (text : String) : List Entity :=
  ((emailMatches text).map (fun email =>
    { text := email, type := "OTHER", importance := 5,
      description := "Contact email: " ++ email, aliases := [],
      confidence := 1, source := some "pattern" })) ++
  ((urlMatches text).map (fun p =>
    { text := p.1, type := "ORGANIZATION", importance := 5,
      description := "Referenced website: " ++ p.1, aliases := [p.2],
      confidence := 9/10, source := some "pattern" })) ++
  ((techTerms.filter (fun term =>
      containsSub (toLowerStr text) (toLowerStr term))).map (fun term =>
    { text := term, type := "TECHNOLOGY", importance := 6,
      description := "Technology mentioned: " ++ term, aliases := [],
      confidence := 8/10, source := some "pattern" }))

/-- One step of the deduplication map of mergeAndDeduplicateEntities: set
the entry of key, keeping the already stored record unless the new one has
strictly higher confidence; an existing key keeps its position, a new key
is appended (JavaScript Map semantics). -/
def mapSetKeep (key : String) (entity : Entity) :
    List (String × Entity) → List (String × Entity)
  | [] => [(key, entity)]
  | (k, v) :: rest =>
    if key = k then
      (k, if entity.confidence > v.confidence then entity else v) :: rest
    else (k, v) :: mapSetKeep key entity rest

/-- Source: mergeAndDeduplicateEntities — group by lower-cased trimmed
entity text and keep the highest-confidence record of each group. -/
def mergeAndDeduplicateEntities (entityArrays : List Entity) : List Entity :=
  (entityArrays.foldl (fun acc entity =>
    mapSetKeep (trimStr (toLowerStr entity.text)) entity acc) []).map Prod.snd

/-- Source: extractEntitiesFallback — on AI failure only the NLP method
runs, with no importance filter. -/
def extractEntitiesFallback (analysis : ContentAnalysis) : List Entity :=
  extractEntitiesWithNLP analysis

/-- Source: extractEntities — aiResult is the outcome of the OpenAI call
(none models the thrown network or JSON parse error, which the catch turns
into the fallback); on success the three method outputs are concatenated,
deduplicated and filtered by the importance threshold of the
configuration.  No maxEntities cap appears anywhere in the source, and the
fallback path applies no filter. -/
def extractEntities (aiResult : Option (List Entity)) (text : String)
    (analysis : ContentAnalysis) (config : ProcessorConfig) : List Entity :=
  match aiResult with
  | some aiEntities =>
    (mergeAndDeduplicateEntities
      (aiEntities ++ extractEntitiesWithNLP analysis ++
        extractEntitiesWithPatterns text)).filter
      (fun entity => config.minEntityImportance ≤ entity.importance)
  | none => extractEntitiesFallback analysis

/-! Relationship inference (source: findRelationships,
analyzeEntityRelationship, findEntityMentions of the content processor). -/

/-- Source: findEntityMentions — all occurrence positions of the
lower-cased entity text in the lower-cased content text. -/
def findEntityMentions (entity : Entity) (text : String) : List Nat :=
  strIndexes (toLowerStr entity.text).data (toLowerStr text).data

/-- Absolute distance between two mention positions (Math.abs of the
difference). -/
def posDist (p1 p2 : Nat) : Nat := ((p1 : Int) - p2).natAbs

/-- Source: the nested forEach of analyzeEntityRelationship, accumulating
1 / (distance + 1) for every mention pair strictly closer than 100
characters. -/
def proximityScoreAux (m1 m2 : List Nat) : ℚ :=
  m1.foldl (fun acc p1 =>
    m2.foldl (fun acc2 p2 =>
      if posDist p1 p2 < 100 then acc2 + 1 / ((posDist p1 p2 : ℚ) + 1)
      else acc2) acc) 0

/-- The relationship-type chain of analyzeEntityRelationship: the variable
starts at RELATED_TO and is reassigned by the if chain on the ordered pair
of entity types. -/
def relationshipTypeFor (type1 type2 : String) : String :=
  if type1 = "PERSON" ∧ type2 = "ORGANIZATION" then "WORKS_FOR"
  else if type1 = "ORGANIZATION" ∧ type2 = "LOCATION" then "LOCATED_IN"
  else if type1 = "PERSON" ∧ type2 = "PERSON" then "ASSOCIATED_WITH"
  else if type1 = "CONCEPT" ∧ type2 = "TECHNOLOGY" then "IMPLEMENTS"
  else "RELATED_TO"

/-- The strength formula of analyzeEntityRelationship:
Math.min(proximityScore / 10, 1.0). -/
def relationshipStrength (m1 m2 : List Nat) : ℚ :=
  min (proximityScoreAux m1 m2 / 10) 1

/-- Source: analyzeEntityRelationship — mention positions of both entities,
proximity score, type from the ordered pair of entity types, strength
capped at 1; a record is returned only when the strength exceeds 0.1
(extractRelationshipEvidence of the source returns the empty list). -/
def analyzeEntityRelationship (entity1 entity2 : Entity) (text : String) :
    Option Relationship :=
  let entity1Mentions := findEntityMentions entity1 text
  let entity2Mentions := findEntityMentions entity2 text
  let relationshipType := relationshipTypeFor entity1.type entity2.type
  let strength := relationshipStrength entity1Mentions entity2Mentions
  if 1/10 < strength then
    some { fromText := entity1.text
           toText := entity2.text
           type := relationshipType
           strength := strength
           confidence := min (entity1.confidence * entity2.confidence * strength) 1
           description := entity1.text ++ " is " ++
             replaceFirst (toLowerStr relationshipType) "_" " " ++ " " ++
             entity2.text
           evidence := [] }
  else none

/-- The ordered pairs walked by the nested index loops of
findRelationships (every i strictly before j). -/
def entityPairs : List Entity → List (Entity × Entity)
  | [] => []
  | e :: es => es.map (fun e2 => (e, e2)) ++ entityPairs es

/-- Source: findRelationships — keep a pair only when
analyzeEntityRelationship produced a record with strength above 0.3, then
sort descending by strength. -/
def findRelationships (entities : List Entity) (text : String) :
    List Relationship :=
  let relationships := (entityPairs entities).filterMap (fun p =>
    match analyzeEntityRelationship p.1 p.2 text with
    | some r => if 3/10 < r.strength then some r else none
    | none => none)
  stableSort (fun a b => decide (b.strength ≤ a.strength)) relationships

/-- Division as JavaScript evaluates it in calculateOverallConfidence:
none models the NaN produced when the denominator is zero (for these calls
the numerator is a sum over the same empty list, hence 0 / 0). -/
def jsDivOpt (a b : ℚ) : Option ℚ := if b = 0 then none else some (a / b)

/-- Source: calculateOverallConfidence — the entity average divides by the
entity count with no guard, the relationship average divides by
(relationships.length or 1); a NaN entity average propagates through the
final mean. -/
def calculateOverallConfidence (entities : List Entity)
    (relationships : List Relationship) : Option ℚ :=
  let entityConfidence :=
    jsDivOpt ((entities.map Entity.confidence).sum) (entities.length : ℚ)
  let relationshipConfidence :=
    ((relationships.map Relationship.confidence).sum) /
      ((jsOrNatOne relationships.length : ℚ))
  entityConfidence.map (fun ec => (ec + relationshipConfidence) / 2)

/-! Relationship typing of the simplified engine (source:
determineRelationshipType in api/process-url.js; the same function appears
in the serverless copy in src/unnamed/part_000 with a one-element default
list). -/

/-- The candidate-type table keyed by the type of the first entity. -/
def typeMapLookup (t : String) : Option (List String) :=
  if t = "PRODUCT" then some ["ENABLES", "USES", "IMPLEMENTS"]
  else if t = "TECHNOLOGY" then some ["POWERS", "SUPPORTS", "ENHANCES"]
  else if t = "CONCEPT" then some ["RELATES_TO", "INFLUENCES", "OPTIMIZES"]
  else if t = "ORGANIZATION" then some ["DEVELOPS", "PROVIDES", "CREATES"]
  else none

/-- Source: determineRelationshipType of api/process-url.js — picks among
the candidate types for the type of the first entity at the index
Math.floor(Math.random() * types.length); the random draw is passed in as
rand in the interval [0, 1).  An out-of-range index would yield undefined
in the source and is modelled by the empty string. -/
def determineRelationshipType (entity1 entity2 : Entity) (rand : ℚ) :
    String :=
  let types := (typeMapLookup entity1.type).getD
    ["RELATED_TO", "CONNECTED_TO", "ASSOCIATED_WITH"]
  types.getD (⌊rand * types.length⌋).toNat ""

/-! Graph store data model (source: the Neo4j node and edge properties
written by XoptYmiZKnowledgeGraph; datetime-valued properties are
omitted, processedAt is kept as an abstract tick). -/

/-- Source: generateId — md5 of the lower-cased trimmed text; the hash is
modelled by the normalized text itself (the hash is treated as
injective). -/
def generateId (text : String) : String := trimStr (toLowerStr text)

/-- Source: generateContentHash — sha256 of the content, modelled by the
content itself. -/
def generateContentHash (content : String) : String := content

/-- Source: normalizeRelationshipType — upper-case and replace every
character outside A-Z, 0-9 and underscore with an underscore. -/
def normalizeRelationshipType (type : String) : String :=
  ⟨(toUpperStr type).data.map (fun c =>
    if ('A' ≤ c ∧ c ≤ 'Z') ∨ ('0' ≤ c ∧ c ≤ '9') ∨ c = '_' then c else '_')⟩

/-- Domain node properties. -/
structure DomainNode where
  name : String
  id : String
  pageCount : Nat
  entityCount : Nat
deriving Repr, DecidableEq

/-- Semantic metadata stored on a page by storeSemanticMetadata. -/
structure SemanticData where
  categories : List String
  keywords : List String
  sentimentPolarity : ℚ
  language : String
  contentType : String
  expertiseLevel : String
  topicalAuthority : ℚ
deriving Repr, DecidableEq

/-- Page node properties.  processedAt is the tick at which the page was
last processed (datetime() is modelled by a caller-supplied tick). -/
structure PageNode where
  url : String
  id : String
  title : String
  wordCount : ℚ
  readability : ℚ
  contentHash : String
  version : Nat
  processedAt : Nat
  semantic : Option SemanticData
deriving Repr, DecidableEq

/-- Entity node properties. -/
structure EntityNode where
  id : String
  text : String
  type : String
  importance : ℚ
  description : String
  aliases : List String
  confidence : ℚ
  mentionCount : Nat
  pageCount : Nat
deriving Repr, DecidableEq

/-- Properties of a page-to-entity containment edge. -/
structure ContainEdge where
  importance : ℚ
  confidence : ℚ
deriving Repr, DecidableEq

/-- Properties of an entity-to-entity relationship edge. -/
structure RelEdge where
  strength : ℚ
  confidence : ℚ
  description : String
  evidence : List String
deriving Repr, DecidableEq

/-- The property graph: node lists plus edge lists.  Domain-to-page
containment edges are bare pairs of domain name and page id; page-to-entity
containment edges are keyed by the pair of page id and entity id;
relationship edges are keyed by from id, relationship type and to id. -/
structure GraphStore where
  domains : List DomainNode
  pages : List PageNode
  entities : List EntityNode
  domainPages : List (String × String)
  containment : List ((String × String) × ContainEdge)
  relEdges : List ((String × String × String) × RelEdge)
deriving Repr, DecidableEq

/-- Update the first element satisfying the key (the merge keys of the
source are unique in the store, so at most one node matches). -/
def updateWhere (p : α → Bool) (f : α → α) : List α → List α
  | [] => []
  | x :: xs => if p x then f x :: xs else x :: updateWhere p f xs

/-- Cypher MERGE on a node list: when a node matches the key apply the
ON MATCH update to it, otherwise append the ON CREATE node. -/
def mergeInto (key : α → Bool) (onCreate : α) (onMatch : α → α)
    (l : List α) : List α :=
  match l.find? key with
  | some _ => updateWhere key onMatch l
  | none => l ++ [onCreate]

/-! The ingestion input (the processedContent object handed to
storeProcessedContent by the processing pipeline). -/

/-- Ingestion input.  contentOriginal, wordCount and readability are the
fields of processedContent.content read by createPageNode. -/
structure ProcessedContent where
  id : Option String
  url : Option String
  title : Option String
  contentOriginal : String
  wordCount : ℚ
  readability : ℚ
  entities : List Entity
  relationships : List Relationship
  semanticData : Option SemanticData
deriving Repr, DecidableEq

/-- Source: extractDomain — requires the url to contain the scheme marker,
then takes the hostname (the text between the marker and the first of
slash, question mark, colon or the end) and strips the first www.
occurrence; URL parsing is modelled by this direct hostname
computation. -/
def extractDomain (url : Option String) : Option String :=
  match url with
  | none => none
  | some u =>
    match strIndexes "://".data u.data with
    | [] => none
    | i :: _ =>
      let host := (u.data.drop (i + 3)).takeWhile
        (fun c => c != '/' && c != '?' && c != ':')
      some (replaceFirst ⟨host⟩ "www." "")

/-- The client-side page id of storeProcessedContent:
processedContent.id or generateId(processedContent.url or
processedContent.title).  When both url and title are absent the source
would crash on undefined before writing anything; that unreachable case is
modelled by hashing the empty string. -/
def pageIdOf (pc : ProcessedContent) : String :=
  match pc.id with
  | some i => jsOrS i (generateId (jsOrOS pc.url (jsOrOS pc.title "")))
  | none => generateId (jsOrOS pc.url (jsOrOS pc.title ""))

/-- The url key of the page MERGE: processedContent.url or the synthetic
content scheme around the page id. -/
def pageUrlOf (pc : ProcessedContent) : String :=
  jsOrOS pc.url ("content://" ++ pageIdOf pc)

/-- The id of the node the page MERGE returns: the id of the already stored
page when the url matched, the freshly computed id otherwise.  It is
computed against the store the transaction runs on, which no earlier
statement of the same transaction can change at the page url. -/
def storedPageIdOf (g : GraphStore) (pc : ProcessedContent) : String :=
  match g.pages.find? (fun p => p.url == pageUrlOf pc) with
  | some p => p.id
  | none => pageIdOf pc

/-- The dollar-parameters of one entity MERGE of createEntityNodes, with
the JavaScript or-defaults applied (entity.aliases is always an array in
this model, so its or-default is the identity). -/
structure EntityParams where
  entityId : String
  text : String
  type : String
  importance : ℚ
  description : String
  aliases : List String
  confidence : ℚ
deriving Repr, DecidableEq

/-- Parameter construction of createEntityNodes. -/
def entityParamsOf (entity : Entity) : EntityParams :=
  { entityId := generateId entity.text
    text := entity.text
    type := jsOrS entity.type "OTHER"
    importance := jsOrQ entity.importance 5
    description := jsOrS entity.description ""
    aliases := entity.aliases
    confidence := jsOrQ entity.confidence (8/10) }

/-- The ON CREATE node of the entity MERGE. -/
def entityOnCreate (p : EntityParams) : EntityNode :=
  { id := p.entityId
    text := p.text
    type := p.type
    importance := p.importance
    description := p.description
    aliases := p.aliases
    confidence := p.confidence
    mentionCount := 1
    pageCount := 1 }

/-- The ON MATCH update of the entity MERGE: importance becomes the new
value only when it is strictly larger, confidence becomes the mean of the
new and stored values, mentionCount goes up by one. -/
def entityOnMatch (p : EntityParams) (e : EntityNode) : EntityNode :=
  { e with
    importance := if p.importance > e.importance then p.importance
      else e.importance
    confidence := (p.confidence + e.confidence) / 2
    mentionCount := e.mentionCount + 1 }

/-- The entity MERGE of createEntityNodes on the entity node list. -/
def upsertEntityNode (p : EntityParams) (l : List EntityNode) :
    List EntityNode :=
  mergeInto (fun e => e.id == p.entityId) (entityOnCreate p)
    (entityOnMatch p) l

/-! The statements of the ingestion transaction, as state transformers on
the graph store. -/

/-- Source: the MERGE of createDomainNode (ON MATCH only touches a
timestamp). -/
def createDomainNodeStmt (domain : String) (g : GraphStore) : GraphStore :=
  let ds := mergeInto (fun d => d.name == domain)
    ({ name := domain, id := generateId domain, pageCount := 1,
       entityCount := 0 })
    (fun d => d) g.domains
  { g with domains := ds }

/-- Source: the page MERGE of createPageNode — keyed by url, ON CREATE at
version 1, ON MATCH overwriting the derived fields and incrementing the
version. -/
def createPageNodeStmt (pc : ProcessedContent) (now : Nat)
    (g : GraphStore) : GraphStore :=
  let pageId := pageIdOf pc
  let url := pageUrlOf pc
  let title := jsOrOS pc.title "Untitled"
  let wordCount := jsOrQ pc.wordCount 0
  let readability := jsOrQ pc.readability 0
  let contentHash := generateContentHash pc.contentOriginal
  let ps := mergeInto (fun p => p.url == url)
    ({ url := url, id := pageId, title := title, wordCount := wordCount,
       readability := readability, contentHash := contentHash,
       version := 1, processedAt := now, semantic := none })
    (fun p =>
      { p with
        title := title
        wordCount := wordCount
        readability := readability
        contentHash := contentHash
        version := p.version + 1
        processedAt := now })
    g.pages
  { g with pages := ps }

/-- Source: the MATCH plus MERGE that links the domain to the page; with no
matching domain or page the statement binds no rows and writes nothing. -/
def linkDomainPageStmt (domain pageId : String) (g : GraphStore) :
    GraphStore :=
  if (g.domains.any (fun d => d.name == domain)) &&
     (g.pages.any (fun p => p.id == pageId)) then
    if g.domainPages.contains (domain, pageId) then g
    else { g with domainPages := g.domainPages ++ [(domain, pageId)] }
  else g

/-- Source: the entity MERGE statement of createEntityNodes. -/
def mergeEntityStmt (p : EntityParams) (g : GraphStore) : GraphStore :=
  let es := upsertEntityNode p g.entities
  { g with entities := es }

/-- Source: the containment MERGE of createEntityNodes — keyed by the pair
of page id and entity id, ON CREATE storing importance and confidence,
ON MATCH keeping the larger importance. -/
def mergeContainmentStmt (pageId : String) (p : EntityParams)
    (g : GraphStore) : GraphStore :=
  if (g.pages.any (fun pg => pg.id == pageId)) &&
     (g.entities.any (fun e => e.id == p.entityId)) then
    match g.containment.find? (fun c => c.1 == (pageId, p.entityId)) with
    | some _ =>
      let bump : ContainEdge → ContainEdge := fun ce =>
        { ce with
          importance := if p.importance > ce.importance then p.importance
            else ce.importance }
      let cs := updateWhere (fun c => c.1 == (pageId, p.entityId))
        (fun c => (c.1, bump c.2)) g.containment
      { g with containment := cs }
    | none =>
      let newEdge : ContainEdge :=
        { importance := p.importance, confidence := p.confidence }
      { g with containment := g.containment ++ [((pageId, p.entityId), newEdge)] }
  else g

/-- Source: the relationship MERGE of createEntityRelationships — keyed by
from id, relationship type and to id, ON MATCH averaging strength and
confidence. -/
def mergeRelStmt (fromId toId relType : String) (strength confidence : ℚ)
    (description : String) (evidence : List String) (g : GraphStore) :
    GraphStore :=
  if (g.entities.any (fun e => e.id == fromId)) &&
     (g.entities.any (fun e => e.id == toId)) then
    match g.relEdges.find? (fun r => r.1 == (fromId, relType, toId)) with
    | some _ =>
      let avg : RelEdge → RelEdge := fun re =>
        { re with
          strength := (re.strength + strength) / 2
          confidence := (re.confidence + confidence) / 2 }
      let rs := updateWhere (fun r => r.1 == (fromId, relType, toId))
        (fun r => (r.1, avg r.2)) g.relEdges
      { g with relEdges := rs }
    | none =>
      let newEdge : RelEdge :=
        { strength := strength, confidence := confidence,
          description := description, evidence := evidence }
      { g with relEdges := g.relEdges ++ [((fromId, relType, toId), newEdge)] }
  else g

/-- The stored form of the semantic metadata with the or-defaults of
storeSemanticMetadata applied. -/
def semanticParamsOf (sd : SemanticData) : SemanticData :=
  { categories := sd.categories
    keywords := sd.keywords
    sentimentPolarity := jsOrQ sd.sentimentPolarity 0
    language := jsOrS sd.language "en"
    contentType := jsOrS sd.contentType "article"
    expertiseLevel := jsOrS sd.expertiseLevel "intermediate"
    topicalAuthority := jsOrQ sd.topicalAuthority (1/2) }

/-- Source: the SET of storeSemanticMetadata on the page node. -/
def storeSemanticMetadataStmt (pageId : String) (sd : SemanticData)
    (g : GraphStore) : GraphStore :=
  let ps := updateWhere (fun p => p.id == pageId)
    (fun p => { p with semantic := some (semanticParamsOf sd) }) g.pages
  { g with pages := ps }

/-- Source: updateDomainStatistics — recompute the page and entity counts
of the domain from the live containment edges. -/
def updateDomainStatisticsStmt (domain : String) (g : GraphStore) :
    GraphStore :=
  let recount : DomainNode → DomainNode := fun d =>
    let pageIds := ((g.domainPages.filter
      (fun dp => dp.1 == domain)).map (fun dp => dp.2)).dedup
    let entityIds := ((g.containment.filter
      (fun c => pageIds.contains c.1.1)).map (fun c => c.1.2)).dedup
    { d with
      pageCount := pageIds.length
      entityCount := entityIds.length }
  let ds := updateWhere (fun d => d.name == domain) recount g.domains
  { g with domains := ds }

/-- The ordered statement list of the transaction of storeProcessedContent:
domain MERGE when the url has a domain, page MERGE, domain-page link,
per entity the entity MERGE followed by the containment MERGE, per
relationship with both endpoint texts among the ingested entities the
relationship MERGE, the semantic metadata SET when present, and the domain
statistics recompute.  The page id the page MERGE returned (used by the
containment and metadata statements) depends on the store the transaction
runs against, so the initial store is a parameter. -/
def buildStatements (g0 : GraphStore) (pc : ProcessedContent) (now : Nat) :
    List (GraphStore → GraphStore) :=
  let domain := extractDomain pc.url
  let pageId := pageIdOf pc
  let storedPageId := storedPageIdOf g0 pc
  (match domain with
   | some d => [createDomainNodeStmt d]
   | none => []) ++
  [createPageNodeStmt pc now] ++
  (match domain with
   | some d => [linkDomainPageStmt d pageId]
   | none => []) ++
  (pc.entities.foldr (fun e acc =>
     mergeEntityStmt (entityParamsOf e) ::
     mergeContainmentStmt storedPageId (entityParamsOf e) :: acc) []) ++
  (pc.relationships.filterMap (fun r =>
     if (pc.entities.any (fun e => e.text == r.fromText)) &&
        (pc.entities.any (fun e => e.text == r.toText)) then
       some (mergeRelStmt (generateId r.fromText) (generateId r.toText)
         (normalizeRelationshipType (jsOrS r.type "RELATED_TO"))
         (jsOrQ r.strength (1/2)) (jsOrQ r.confidence (7/10))
         (jsOrS r.description "") r.evidence)
     else none)) ++
  (match pc.semanticData with
   | some sd => [storeSemanticMetadataStmt storedPageId sd]
   | none => []) ++
  (match domain with
   | some d => [updateDomainStatisticsStmt d]
   | none => [])

/-- Run the buffered statements in order; fail i tells whether the i-th
driver call (0-based, in execution order) throws. -/
def runStatements (fail : Nat → Bool) :
    List (GraphStore → GraphStore) → Nat → GraphStore →
    Except Unit GraphStore
  | [], _, g => .ok g
  | s :: rest, i, g =>
    if fail i then .error () else runStatements fail rest (i + 1) (s g)

/-- The error class thrown by the graph store (the KnowledgeGraphError of
the source wraps the message of the underlying failure). -/
structure KnowledgeGraphError where
  message : String
deriving Repr, DecidableEq

/-- The receipt returned by a successful storeProcessedContent call
(processingTimeMs omitted). -/
structure StoreReceipt where
  pageId : String
  entitiesStored : Nat
  relationshipsStored : Nat
deriving Repr, DecidableEq

/-- All statements applied in order with no failure. -/
def applyStatements (g0 : GraphStore) (pc : ProcessedContent) (now : Nat) :
    GraphStore :=
  (buildStatements g0 pc now).foldl (fun g s => s g) g0

/-- Source: storeProcessedContent — every statement runs inside one
transaction against a buffered copy of the store; the commit is one more
failure point (index the number of statements); on success the buffer is
published, on any failure the rollback leaves the store untouched and the
error surfaces as a KnowledgeGraphError.  The returned pair is the store
visible after the call together with the outcome. -/
def storeProcessedContent (g : GraphStore) (pc : ProcessedContent)
    (now : Nat) (fail : Nat → Bool) :
    GraphStore × Except KnowledgeGraphError StoreReceipt :=
  let stmts := buildStatements g pc now
  match runStatements fail stmts 0 g with
  | .error _ => (g, .error { message := "Storage failed" })
  | .ok buffered =>
    if fail stmts.length then (g, .error { message := "Storage failed" })
    else (buffered, .ok
      { pageId := storedPageIdOf g pc
        entitiesStored := pc.entities.length
        relationshipsStored := pc.relationships.length })

/-! The LLMs.txt export (source: generateLLMsTxt and formatLLMsTxt of the
knowledge graph engine). -/

/-- Options of generateLLMsTxt with the defaults of the source. -/
structure LlmsOptions where
  maxPages : Nat := 50
  maxTokens : Nat := 8000
  includeMetadata : Bool := true
  sortBy : String := "importance"
deriving Repr, DecidableEq

/-- One collected entity row of the export query. -/
structure LlmsEntityRow where
  text : String
  type : String
  importance : ℚ
  confidence : ℚ
deriving Repr, DecidableEq

/-- One record of the export query: a page of the domain with its collected
entities, the average containment importance and the entity count. -/
structure LlmsRecord where
  url : String
  title : String
  wordCount : ℚ
  readability : ℚ
  entities : List LlmsEntityRow
  avgImportance : ℚ
  entityCount : Nat
  processedAt : Nat
deriving Repr, DecidableEq

/-- Rows of the export query: each page linked from the domain, joined
through its containment edges to its entities.  The Cypher pattern needs a
complete path, so a page with no entities produces no record. -/
def llmsRecordsFor (g : GraphStore) (domain : String) : List LlmsRecord :=
  g.pages.filterMap (fun p =>
    if g.domainPages.contains (domain, p.id) then
      let rows := g.containment.filterMap (fun c =>
        if c.1.1 == p.id then
          (g.entities.find? (fun e => e.id == c.1.2)).map (fun e => (e, c.2))
        else none)
      if rows.isEmpty then none
      else some
        { url := p.url
          title := p.title
          wordCount := p.wordCount
          readability := p.readability
          entities := rows.map (fun r =>
            { text := r.1.text, type := r.1.type,
              importance := r.1.importance, confidence := r.1.confidence })
          avgImportance :=
            (rows.map (fun r => r.2.importance)).sum / (rows.length : ℚ)
          entityCount := rows.length
          processedAt := p.processedAt }
    else none)

/-- The ORDER BY key of the export query (the CASE on sortBy, defaulting to
the average importance). -/
def llmsSortKey (sortBy : String) (r : LlmsRecord) : ℚ :=
  if sortBy = "importance" then r.avgImportance
  else if sortBy = "entities" then (r.entityCount : ℚ)
  else if sortBy = "date" then (r.processedAt : ℚ)
  else r.avgImportance

/-- Number rendering inside the generated text.  JavaScript renders numbers
in decimal (toFixed rounds to two places); the rendering is presentational
only and is modelled by the exact rational printed with toString. -/
def numStr (q : ℚ) : String := toString q

/-- Source: formatLLMsTxt — header, optional metadata block, numbered table
of contents, per-page sections with the top ten entities by importance, and
the fixed footer. -/
def formatLLMsTxt (records : List LlmsRecord) (domain : String)
    (options : LlmsOptions) (now : String) : String :=
  let metaBlock :=
    if options.includeMetadata then
      "## Metadata\n\n- Domain: " ++ domain ++ "\n- Pages: " ++
        toString records.length ++ "\n- Generated: " ++ now ++
        "\n- Optimization: Three-dimensional (SEO + AI + Knowledge Graph)\n\n"
    else ""
  let toc := String.join (records.enum.map (fun ir =>
    toString (ir.1 + 1) ++ ". [" ++ jsOrS ir.2.title "Untitled" ++
      "](" ++ "\x23page-" ++ toString (ir.1 + 1) ++ ")\n"))
  let sections := String.join (records.enum.map (fun ir =>
    let title := jsOrS ir.2.title "Untitled"
    let urlLine :=
      if ir.2.url != "" && ir.2.url != ("content://" ++ generateId title)
      then "**URL:** " ++ ir.2.url ++ "\n\n" else ""
    let stats :=
      if options.includeMetadata then
        "**Statistics:** " ++ numStr (jsOrQ ir.2.wordCount 0) ++
          " words, " ++ toString ir.2.entities.length ++
          " entities, importance " ++ numStr (jsOrQ ir.2.avgImportance 0) ++
          "\n\n"
      else ""
    let entityLines :=
      if ir.2.entities.length > 0 then
        "**Key Entities:**\n" ++ String.join
          (((stableSort (fun a b => decide (b.importance ≤ a.importance))
              ir.2.entities).take 10).map (fun e =>
            "- **" ++ e.text ++ "** (" ++ e.type ++ ")" ++
              (if options.includeMetadata then
                " - Importance: " ++ numStr e.importance ++
                  ", Confidence: " ++ numStr e.confidence
               else "") ++ "\n")) ++ "\n"
      else ""
    "\x23\x23\x23 Page " ++ toString (ir.1 + 1) ++ ": " ++ title ++
      " \x7b\x23page-" ++ toString (ir.1 + 1) ++ "\x7d\n\n" ++
      urlLine ++ stats ++ entityLines))
  "\x23 " ++ domain ++ "\n\n> AI-optimized knowledge graph for " ++ domain ++
    ". Generated by XoptYmiZ.\n\n" ++ metaBlock ++
    "## Navigation\n\n" ++ toc ++ "\n## Content\n\n" ++ sections ++
    "---\n\n*Generated by XoptYmiZ - Optimization in Every Dimension*\n" ++
    "*Learn more at https://xoptymiz.com*\n"

/-- Result metadata of generateLLMsTxt. -/
structure LlmsMetadata where
  domain : String
  pageCount : Nat
  generatedAt : String
  estimatedTokens : Nat
deriving Repr, DecidableEq

/-- Result of generateLLMsTxt. -/
structure LlmsResult where
  content : String
  metadata : LlmsMetadata
deriving Repr, DecidableEq

/-- Source: estimateTokens — about four characters per token, rounded
up. -/
def estimateTokens (text : String) : Nat := (text.length + 3) / 4

/-- Source: generateLLMsTxt — run the export query (sorted by the chosen
key, limited to maxPages); with no records the source throws, and the
surrounding catch wraps the message into a KnowledgeGraphError; otherwise
the formatted document and its metadata are returned. -/
def generateLLMsTxt (g : GraphStore) (domain : String)
    (options : LlmsOptions) (now : String) :
    Except KnowledgeGraphError LlmsResult :=
  let key := llmsSortKey options.sortBy
  let records := (stableSort (fun a b => decide (key b ≤ key a))
    (llmsRecordsFor g domain)).take options.maxPages
  if records.isEmpty then
    .error { message :=
      "LLMs.txt generation failed: No content found for domain: " ++ domain }
  else
    let content := formatLLMsTxt records domain options now
    .ok { content := content
          metadata :=
            { domain := domain
              pageCount := records.length
              generatedAt := now
              estimatedTokens := estimateTokens content } }

/-! Definitions stated from the words of the specification, for comparison
with the corresponding source computations. -/

/-- The proximity score as the specification words it: the sum over all
mention-position pairs within 100 characters of each other of
1 / (1 + distance). -/
def specProximityScore (m1 m2 : List Nat) : ℚ :=
  (m1.map (fun p1 =>
    ((m2.filter (fun p2 => posDist p1 p2 < 100)).map
      (fun p2 => 1 / ((posDist p1 p2 : ℚ) + 1))).sum)).sum

/-- Word count as the specification words it: tokenization by whitespace. -/
def specWhitespaceWordCount (s : String) : Nat :=
  ((s.data.splitOnP isJsWs).filter (fun w => !w.isEmpty)).length

/-- The contribution of one mention pair at distance d to the proximity
score (zero outside the 100 character window); a proof-layer regrouping of
the guarded accumulation of the source. -/
def pairContribution (d : Nat) : ℚ :=
  if d < 100 then 1 / ((d : ℚ) + 1) else 0

/-! Concrete instances used by the closed witness and counterexample
statements below. -/

/-- An oracle standing for an unavailable network and parser. -/
def failStr : String → Except String NormalizedContent :=
  fun _ => .error "unavailable"

/-- The empty graph store. -/
def emptyStore : GraphStore :=
  { domains := [], pages := [], entities := [], domainPages := [],
    containment := [], relEdges := [] }

/-- A person entity called a. -/
def cexA : Entity :=
  { text := "a", type := "PERSON", importance := 7, description := "",
    aliases := [], confidence := 1 }

/-- An organization entity called a. -/
def cexB : Entity :=
  { text := "a", type := "ORGANIZATION", importance := 7, description := "",
    aliases := [], confidence := 1 }

/-- A product entity, whose type has a three-candidate list in the type
table of determineRelationshipType. -/
def cexP : Entity :=
  { text := "XoptYmiZ", type := "PRODUCT", importance := 10,
    description := "", aliases := [], confidence := 1 }

/-- The relationship the engine computes between cexA and cexB on the text
aa (both entities are mentioned at positions 0 and 1, giving proximity
score 3 and strength 3/10). -/
def cexRelA : Relationship :=
  (analyzeEntityRelationship cexA cexB "aa").getD default

/-- An analysis that recognized one person. -/
def cexAnalysis : ContentAnalysis :=
  { topics := [], people := ["Bob"], places := [], organizations := [],
    sentences := [], nouns := [], verbs := [], adjectives := [] }

/-- A configuration demanding importance at least 8. -/
def cexConfig : ProcessorConfig := { minEntityImportance := 8 }

/-- A high-importance organization as the AI method would return it. -/
def cexAcme : Entity :=
  { text := "Acme", type := "ORGANIZATION", importance := 9,
    description := "", aliases := [], confidence := 1 }

/-- An AI extraction result with one high-importance organization. -/
def cexAiList : List Entity := [cexAcme]

/-- An analysis that recognized nothing. -/
def cexEmptyAnalysis : ContentAnalysis :=
  { topics := [], people := [], places := [], organizations := [],
    sentences := [], nouns := [], verbs := [], adjectives := [] }

/-- First observation of an entity: importance 5, confidence 6/10. -/
def cexObs5 : EntityParams :=
  { entityId := "acme", text := "Acme", type := "ORGANIZATION",
    importance := 5, description := "", aliases := [], confidence := 6/10 }

/-- Second observation of the same entity: importance 8, confidence
8/10. -/
def cexObs8 : EntityParams :=
  { entityId := "acme", text := "Acme", type := "ORGANIZATION",
    importance := 8, description := "", aliases := [], confidence := 8/10 }

/-! Helper lemmas. -/

/-- The inner accumulation of analyzeEntityRelationship equals the starting
accumulator plus the restricted sum of the specification. -/
lemma foldl_proximity_inner (p1 : Nat) (m2 : List Nat) (acc : ℚ) :
    m2.foldl (fun acc2 p2 =>
      if posDist p1 p2 < 100 then acc2 + 1 / ((posDist p1 p2 : ℚ) + 1)
      else acc2) acc
    = acc + ((m2.filter (fun p2 => posDist p1 p2 < 100)).map
        (fun p2 => 1 / ((posDist p1 p2 : ℚ) + 1))).sum := by
  induction m2 generalizing acc with
  | nil => simp
  | cons p2 rest ih =>
    rw [List.foldl_cons, ih]
    by_cases h : posDist p1 p2 < 100
    · simp only [if_pos h, List.filter_cons,
        decide_eq_true_eq]
      simp [h]
      ring
    · simp [h]

/-- The outer accumulation of analyzeEntityRelationship equals the starting
accumulator plus the double sum of the specification. -/
lemma foldl_proximity_outer (m1 m2 : List Nat) (acc : ℚ) :
    m1.foldl (fun acc p1 =>
      m2.foldl (fun acc2 p2 =>
        if posDist p1 p2 < 100 then acc2 + 1 / ((posDist p1 p2 : ℚ) + 1)
        else acc2) acc) acc
    = acc + (m1.map (fun p1 =>
        ((m2.filter (fun p2 => posDist p1 p2 < 100)).map
          (fun p2 => 1 / ((posDist p1 p2 : ℚ) + 1))).sum)).sum := by
  induction m1 generalizing acc with
  | nil => simp
  | cons p1 rest ih =>
    rw [List.foldl_cons, ih, foldl_proximity_inner]
    simp only [List.map_cons, List.sum_cons]
    ring

/-- The accumulation loop of the source computes the proximity score the
specification describes. -/
lemma proximityScoreAux_eq_spec (m1 m2 : List Nat) :
    proximityScoreAux m1 m2 = specProximityScore m1 m2 := by
  unfold proximityScoreAux specProximityScore
  simpa using foldl_proximity_outer m1 m2 0

/-- The restricted inner sum of the specification is the total sum of the
windowed pair contributions. -/
lemma filterMapSum_eq_contribution (p1 : Nat) (m2 : List Nat) :
    ((m2.filter (fun p2 => posDist p1 p2 < 100)).map
      (fun p2 => 1 / ((posDist p1 p2 : ℚ) + 1))).sum
    = (m2.map (fun p2 => pairContribution (posDist p1 p2))).sum := by
  induction m2 with
  | nil => simp
  | cons p2 rest ih =>
    by_cases h : posDist p1 p2 < 100
    · rw [List.filter_cons_of_pos (by simpa using h), List.map_cons,
        List.sum_cons, List.map_cons, List.sum_cons, ih]
      simp [pairContribution, h]
    · rw [List.filter_cons_of_neg (by simpa using h), List.map_cons,
        List.sum_cons, ih]
      simp [pairContribution, h]

/-- Pair contributions are nonnegative. -/
lemma pairContribution_nonneg (d : Nat) : 0 ≤ pairContribution d := by
  unfold pairContribution
  split
  · positivity
  · exact le_refl 0

/-- Pair contributions never increase with distance. -/
lemma pairContribution_antitone {d e : Nat} (h : e ≤ d) :
    pairContribution d ≤ pairContribution e := by
  unfold pairContribution
  by_cases hd : d < 100
  · have he : e < 100 := lt_of_le_of_lt h hd
    simp only [hd, he, if_pos]
    apply one_div_le_one_div_of_le
    · positivity
    · have : (e : ℚ) ≤ (d : ℚ) := by exact_mod_cast h
      linarith
  · simp only [hd, if_neg, if_false]
    by_cases he : e < 100
    · simp only [he, if_pos]
      positivity
    · simp [he]

/-- Inner monotonicity of the contribution sum under pairwise distance
domination. -/
lemma contributionSum_mono_inner {p1 q1 : Nat} {m2 m2q : List Nat}
    (h : List.Forall₂ (fun p2 q2 => posDist q1 q2 ≤ posDist p1 p2) m2 m2q) :
    (m2.map (fun p2 => pairContribution (posDist p1 p2))).sum ≤
    (m2q.map (fun q2 => pairContribution (posDist q1 q2))).sum := by
  induction h with
  | nil => simp
  | cons hab htail ih =>
    simp only [List.map_cons, List.sum_cons]
    exact add_le_add (pairContribution_antitone hab) ih

/-- Outer monotonicity of the double contribution sum. -/
lemma contributionSum_mono {m1 m2 m1q m2q : List Nat}
    (h : List.Forall₂ (fun p1 q1 => List.Forall₂
      (fun p2 q2 => posDist q1 q2 ≤ posDist p1 p2) m2 m2q) m1 m1q) :
    (m1.map (fun p1 =>
      (m2.map (fun p2 => pairContribution (posDist p1 p2))).sum)).sum ≤
    (m1q.map (fun q1 =>
      (m2q.map (fun q2 => pairContribution (posDist q1 q2))).sum)).sum := by
  induction h with
  | nil => simp
  | cons hab htail ih =>
    simp only [List.map_cons, List.sum_cons]
    exact add_le_add (contributionSum_mono_inner hab) ih

/-- The proximity score written as a double sum of pair contributions. -/
lemma proximityScoreAux_eq_contribution (m1 m2 : List Nat) :
    proximityScoreAux m1 m2 = (m1.map (fun p1 =>
      (m2.map (fun p2 => pairContribution (posDist p1 p2))).sum)).sum := by
  rw [proximityScoreAux_eq_spec]
  unfold specProximityScore
  simp only [filterMapSum_eq_contribution]

/-- Searching an appended list when the first part has no hit. -/
lemma find?_append_of_none {p : α → Bool} {l1 l2 : List α}
    (h : l1.find? p = none) : (l1 ++ l2).find? p = l2.find? p := by
  induction l1 with
  | nil => simp
  | cons a l ih =>
    by_cases hpa : p a
    · simp [List.find?_cons, hpa] at h
    · simp only [List.find?_cons, hpa] at h
      simp only [List.cons_append, List.find?_cons, hpa]
      exact ih h

/-- Updating the found element keeps it found when the update preserves the
key. -/
lemma find?_updateWhere {p : α → Bool} {f : α → α} {l : List α} {a : α}
    (h : l.find? p = some a) (hf : p (f a) = true) :
    (updateWhere p f l).find? p = some (f a) := by
  induction l with
  | nil => simp at h
  | cons x xs ih =>
    by_cases hpx : p x
    · rw [List.find?_cons_of_pos _ hpx] at h
      have hax : x = a := by simpa using h
      subst hax
      show (if p x then f x :: xs else x :: updateWhere p f xs).find? p =
        some (f x)
      rw [if_pos hpx, List.find?_cons_of_pos _ hf]
    · rw [List.find?_cons_of_neg _ hpx] at h
      show (if p x then f x :: xs else x :: updateWhere p f xs).find? p =
        some (f a)
      rw [if_neg hpx, List.find?_cons_of_neg _ hpx]
      exact ih h

/-- A successful run of the buffered statements applies them all in
order. -/
lemma runStatements_ok {fail : Nat → Bool}
    (l : List (GraphStore → GraphStore)) :
    ∀ (i : Nat) (g g2 : GraphStore), runStatements fail l i g = .ok g2 →
      g2 = l.foldl (fun g s => s g) g := by
  induction l with
  | nil =>
    intro i g g2 h
    simp only [runStatements] at h
    simp only [Except.ok.injEq] at h
    simp [← h]
  | cons s rest ih =>
    intro i g g2 h
    simp only [runStatements] at h
    by_cases hf : fail i
    · simp [hf] at h
    · rw [if_neg hf] at h
      simpa using ih (i + 1) (s g) g2 h

/-- An option with a value equals some of its default extraction. -/
lemma option_eq_some_getD {o : Option α} {d : α} (h : o.isSome = true) :
    o = some (o.getD d) := by
  cases o with
  | none => simp at h
  | some v => rfl

/-- A domain with no containment links has no export query records. -/
lemma llmsRecordsFor_eq_nil {g : GraphStore} {domain : String}
    (h : g.domainPages.filter (fun dp => dp.1 == domain) = []) :
    llmsRecordsFor g domain = [] := by
  unfold llmsRecordsFor
  rw [List.filterMap_eq_nil]
  intro p hp
  have hmem : (domain, p.id) ∉ g.domainPages := by
    intro hmm
    have hfil : (domain, p.id) ∈
        g.domainPages.filter (fun dp => dp.1 == domain) :=
      List.mem_filter.mpr ⟨hmm, by simp⟩
    rw [h] at hfil
    simp at hfil
  simp [hmem]

/-- Whenever analyzeEntityRelationship returns a record, its type is the
table value at the ordered pair of entity types. -/
lemma analyze_some_type (e1 e2 : Entity) (t : String) (r : Relationship)
    (h : analyzeEntityRelationship e1 e2 t = some r) :
    r.type = relationshipTypeFor e1.type e2.type := by
  simp only [analyzeEntityRelationship] at h
  by_cases hc : (1:ℚ)/10 < relationshipStrength (findEntityMentions e1 t)
      (findEntityMentions e2 t)
  · rw [if_pos hc] at h
    have hr := Option.some.inj h
    rw [← hr]
  · rw [if_neg hc] at h
    exact absurd h (by simp)

/-! Claim theorems. -/

/-- C7: for every entity pair the recorded relationship strength equals
min(proximityScore / 10, 1) with the proximity score the specification
describes (the sum of 1 / (1 + distance) over mention pairs within 100
characters), every recorded pair has strength above 0.1, and every pair
with strength at most 0.1 is discarded. -/
theorem C7_proximity_strength (e1 e2 : Entity) (text : String) :
    match analyzeEntityRelationship e1 e2 text with
    | some r =>
      r.strength = min (specProximityScore (findEntityMentions e1 text)
        (findEntityMentions e2 text) / 10) 1 ∧ 1/10 < r.strength
    | none =>
      min (specProximityScore (findEntityMentions e1 text)
        (findEntityMentions e2 text) / 10) 1 ≤ 1/10 := by
  simp only [analyzeEntityRelationship]
  by_cases hc : (1:ℚ)/10 < relationshipStrength (findEntityMentions e1 text)
      (findEntityMentions e2 text)
  · rw [if_pos hc]
    refine ⟨?_, hc⟩
    show relationshipStrength (findEntityMentions e1 text)
      (findEntityMentions e2 text) = _
    unfold relationshipStrength
    rw [proximityScoreAux_eq_spec]
  · rw [if_neg hc]
    have hle := not_lt.mp hc
    unfold relationshipStrength at hle
    show min (specProximityScore (findEntityMentions e1 text)
      (findEntityMentions e2 text) / 10) 1 ≤ 1/10
    rwa [proximityScoreAux_eq_spec] at hle

/-- C8: when every mention pair of the second configuration is at most as
far apart as the corresponding pair of the first, the computed relationship
strength does not decrease. -/
theorem C8_strength_monotone (m1 m2 m1q m2q : List Nat)
    (h : List.Forall₂ (fun p1 q1 => List.Forall₂
      (fun p2 q2 => posDist q1 q2 ≤ posDist p1 p2) m2 m2q) m1 m1q) :
    relationshipStrength m1 m2 ≤ relationshipStrength m1q m2q := by
  unfold relationshipStrength
  have hs : proximityScoreAux m1 m2 ≤ proximityScoreAux m1q m2q := by
    rw [proximityScoreAux_eq_contribution, proximityScoreAux_eq_contribution]
    exact contributionSum_mono h
  have h10 : proximityScoreAux m1 m2 / 10 ≤ proximityScoreAux m1q m2q / 10 := by
    linarith
  exact min_le_min h10 le_rfl

/-- Witness for C8: one mention pair moved from distance 150 to distance
50. -/
theorem C8_strength_monotone_witness :
    relationshipStrength [0] [150] ≤ relationshipStrength [0] [50] :=
  C8_strength_monotone [0] [150] [0] [50]
    (List.Forall₂.cons
      (List.Forall₂.cons (by decide) List.Forall₂.nil) List.Forall₂.nil)

/-- C6 (amended): in the knowledge graph engine the assigned relationship
type is a deterministic function of the ordered pair of entity types — the
fixed table with PERSON and ORGANIZATION giving WORKS_FOR, ORGANIZATION and
LOCATION giving LOCATED_IN, default RELATED_TO — so two runs on entity
pairs with equal types assign equal types. -/
theorem C6_type_table_deterministic (e1 e2 f1 f2 : Entity) (t1 t2 : String)
    (h1 : e1.type = f1.type) (h2 : e2.type = f2.type) :
    ∀ r ∈ analyzeEntityRelationship e1 e2 t1,
      ∀ s ∈ analyzeEntityRelationship f1 f2 t2,
        r.type = s.type ∧ r.type = relationshipTypeFor e1.type e2.type := by
  intro r hr s hs
  have hr2 := analyze_some_type e1 e2 t1 r (Option.mem_def.mp hr)
  have hs2 := analyze_some_type f1 f2 t2 s (Option.mem_def.mp hs)
  refine ⟨?_, hr2⟩
  rw [hr2, hs2, h1, h2]

/-- Counterexample for C6 as frozen: determineRelationshipType of
api/process-url.js draws the label at random, so two runs on the same
entity pair can disagree (a PRODUCT entity gets ENABLES under one draw and
USES under another). -/
theorem C6_counterexample :
    determineRelationshipType cexP cexA 0 ≠
      determineRelationshipType cexP cexA (1/2) := by
  have h0 : determineRelationshipType cexP cexA 0 = "ENABLES" := by
    simp [determineRelationshipType, typeMapLookup, cexP]
  have hh : determineRelationshipType cexP cexA (1/2) = "USES" := by
    simp [determineRelationshipType, typeMapLookup, cexP]
    have h2 : ⌊(2⁻¹ : ℚ) * 3⌋ = 1 := by
      rw [Int.floor_eq_iff]
      norm_num
    rw [h2]
    rfl
  rw [h0, hh]
  decide

/-- Witness for C6: two runs of the engine on the text aa with a person and
an organization both called a compute the table value WORKS_FOR. -/
theorem C6_type_table_deterministic_witness :
    cexRelA.type = relationshipTypeFor cexA.type cexB.type ∧
      relationshipTypeFor cexA.type cexB.type = "WORKS_FOR" := by
  have hgt : (1:ℚ)/10 < relationshipStrength (findEntityMentions cexA "aa")
      (findEntityMentions cexB "aa") := by
    have hm1 : findEntityMentions cexA "aa" = [0, 1] := by decide
    have hm2 : findEntityMentions cexB "aa" = [0, 1] := by decide
    rw [hm1, hm2]
    unfold relationshipStrength
    have hscore : proximityScoreAux [0, 1] [0, 1] = 3 := by
      simp [proximityScoreAux, posDist]
      norm_num
    rw [hscore]
    norm_num
  have hs : (analyzeEntityRelationship cexA cexB "aa").isSome = true := by
    simp only [analyzeEntityRelationship]
    rw [if_pos hgt]
    rfl
  have hsome : analyzeEntityRelationship cexA cexB "aa" = some cexRelA :=
    option_eq_some_getD hs
  have hres := C6_type_table_deterministic cexA cexB cexA cexB "aa" "aa"
    rfl rfl cexRelA (Option.mem_def.mpr hsome) cexRelA
    (Option.mem_def.mpr hsome)
  exact ⟨hres.2, by decide⟩

/-- C1: the entity upsert of the graph store creates the record on first
sight of an identity key (with mentionCount 1), and on every subsequent
observation of the same key keeps the maximum importance, stores the mean
of the stored and new confidence, and increments mentionCount by exactly
one. -/
theorem C1_entity_upsert_merge (l : List EntityNode) (p : EntityParams) :
    (l.find? (fun e => e.id == p.entityId) = none →
      (upsertEntityNode p l).find? (fun e => e.id == p.entityId) =
        some (entityOnCreate p)) ∧
    (∀ old, l.find? (fun e => e.id == p.entityId) = some old →
      (upsertEntityNode p l).find? (fun e => e.id == p.entityId) =
        some { old with
          importance := max old.importance p.importance
          confidence := (old.confidence + p.confidence) / 2
          mentionCount := old.mentionCount + 1 }) := by
  constructor
  · intro h
    unfold upsertEntityNode mergeInto
    rw [h, find?_append_of_none h]
    simp [entityOnCreate]
  · intro old h
    unfold upsertEntityNode mergeInto
    rw [h]
    have hkey : (fun e => e.id == p.entityId) (entityOnMatch p old) = true := by
      have hold := List.find?_some h
      simpa [entityOnMatch] using hold
    rw [find?_updateWhere h hkey]
    have hrec : entityOnMatch p old = { old with
        importance := max old.importance p.importance
        confidence := (old.confidence + p.confidence) / 2
        mentionCount := old.mentionCount + 1 } := by
      unfold entityOnMatch
      rcases le_or_lt p.importance old.importance with hle | hlt
      · simp [not_lt.mpr hle, max_eq_left hle, add_comm]
      · rw [if_pos hlt, max_eq_right (le_of_lt hlt), add_comm]
    rw [hrec]

/-- Witness for C1: an entity observed with importance 5 and confidence
6/10 and then importance 8 and confidence 8/10 ends with importance 8
(the maximum), confidence 7/10 (the mean) and mentionCount 2. -/
theorem C1_entity_upsert_merge_witness :
    ((upsertEntityNode cexObs8 (upsertEntityNode cexObs5 [])).find?
        (fun e => e.id == cexObs8.entityId)).map EntityNode.importance =
      some 8 ∧
    ((upsertEntityNode cexObs8 (upsertEntityNode cexObs5 [])).find?
        (fun e => e.id == cexObs8.entityId)).map EntityNode.confidence =
      some (7/10) ∧
    ((upsertEntityNode cexObs8 (upsertEntityNode cexObs5 [])).find?
        (fun e => e.id == cexObs8.entityId)).map EntityNode.mentionCount =
      some 2 := by
  have h1 : (upsertEntityNode cexObs5 []).find?
      (fun e => e.id == cexObs8.entityId) = some (entityOnCreate cexObs5) := by
    have := (C1_entity_upsert_merge [] cexObs5).1 rfl
    simpa [cexObs5, cexObs8] using this
  have h2 := (C1_entity_upsert_merge (upsertEntityNode cexObs5 [])
    cexObs8).2 (entityOnCreate cexObs5) h1
  rw [h2]
  refine ⟨?_, ?_, ?_⟩
  · simp [entityOnCreate, cexObs5, cexObs8]
    norm_num
  · simp [entityOnCreate, cexObs5, cexObs8]
    norm_num
  · simp [entityOnCreate, cexObs5, cexObs8]

/-- C3: the ingestion call is atomic — either every statement of the
transaction (domain upsert, page upsert, entity and containment upserts,
relationship upserts, metadata write, domain statistics recompute) is
applied to the published store, or the published store equals the store
before the call and the call fails with the store error. -/
theorem C3_ingestion_atomic (g : GraphStore) (pc : ProcessedContent)
    (now : Nat) (fail : Nat → Bool) :
    ((storeProcessedContent g pc now fail).1 = g ∧
      ∃ e, (storeProcessedContent g pc now fail).2 = .error e) ∨
    ((storeProcessedContent g pc now fail).1 = applyStatements g pc now ∧
      ∃ rcpt, (storeProcessedContent g pc now fail).2 = .ok rcpt) := by
  unfold storeProcessedContent
  cases hrun : runStatements fail (buildStatements g pc now) 0 g with
  | error err =>
    left
    simp [hrun]
  | ok buffered =>
    by_cases hc : fail (buildStatements g pc now).length
    · left
      simp [hrun, hc]
    · right
      have hfold := runStatements_ok (buildStatements g pc now) 0 g
        buffered hrun
      simp [hrun, hc, applyStatements, hfold]

/-- C2 (amended): on the primary path (the AI call succeeded) every entity
extractEntities returns has importance at least the configured threshold;
no maxEntities cap exists in the source and the fallback path applies no
filter. -/
theorem C2_primary_importance_filter (ai : List Entity) (text : String)
    (analysis : ContentAnalysis) (config : ProcessorConfig) :
    ∀ e ∈ extractEntities (some ai) text analysis config,
      config.minEntityImportance ≤ e.importance := by
  intro e he
  simp only [extractEntities, List.mem_filter, decide_eq_true_eq] at he
  exact he.2

/-- Witness for C2: a single importance-9 AI entity passes the default
threshold of 6. -/
theorem C2_primary_importance_filter_witness :
    cexAcme ∈ extractEntities (some cexAiList) "" cexEmptyAnalysis {} ∧
      ProcessorConfig.minEntityImportance {} ≤ cexAcme.importance :=
  ⟨by decide, C2_primary_importance_filter cexAiList "" cexEmptyAnalysis {}
    cexAcme (by decide)⟩

/-- Counterexample for C2 as frozen: when the AI call fails, the fallback
path returns the NLP entities unfiltered, so with threshold 8 an
importance-7 person is still returned. -/
theorem C2_counterexample :
    ((extractEntities none "" cexAnalysis cexConfig).map
      Entity.importance = [7]) ∧
      (7 : ℚ) < cexConfig.minEntityImportance := by
  constructor
  · decide
  · decide

/-- C5 (amended): extractCleanContent fails with the invalid-input error
exactly when each of url, html and text is missing or the empty string (the
truthiness check treats an empty text the same as a missing one). -/
theorem C5_invalid_input_iff
    (fetch parse : String → Except String NormalizedContent)
    (input : InputContent) :
    (extractCleanContent fetch parse input =
        .error ExtractionError.invalidInput) ↔
      (jsTruthy input.url = false ∧ jsTruthy input.html = false ∧
        jsTruthy input.text = false) := by
  by_cases h1 : jsTruthy input.url
  · cases hf : fetch (input.url.getD "") with
    | ok nc => simp [extractCleanContent, h1, hf]
    | error m => simp [extractCleanContent, h1, hf]
  · by_cases h2 : jsTruthy input.html
    · cases hp : parse (input.html.getD "") with
      | ok nc => simp [extractCleanContent, h1, h2, hp]
      | error m => simp [extractCleanContent, h1, h2, hp]
    · by_cases h3 : jsTruthy input.text
      · simp [extractCleanContent, h1, h2, h3]
      · simp [extractCleanContent, h1, h2, h3]

/-- Counterexample for C5 as frozen: an input whose text field is the empty
string is rejected with the invalid-input error instead of producing a
NormalizedContent. -/
theorem C5_counterexample :
    extractCleanContent failStr failStr { text := some "" } =
      .error ExtractionError.invalidInput := rfl

/-- C9 (amended): the readability estimate of processed raw text equals
max(0, 100 - 2 * (wordCount / sentenceCount)) over the counts the
processor computes (its WordTokenizer splits on every non-alphanumeric
character, not only whitespace), and is 0 when the sentence count is 0. -/
theorem C9_readability_formula (text title : String) :
    (processRawText text title).readability =
      if (processRawText text title).sentenceCount = 0 then 0
      else max 0 (100 - 2 * (((processRawText text title).wordCount : ℚ) /
        ((processRawText text title).sentenceCount : ℚ))) := by
  simp only [processRawText]
  unfold calculateReadabilityScore
  by_cases h : (splitSentences (preprocessText text)).length = 0
  · simp [h]
  · rw [if_neg h, if_neg h]
    ring_nf

/-- Counterexample for C9 as frozen: on the text hello-world foo. the
stored readability is 94 (three tokenizer words over one sentence), but the
formula with whitespace word counting gives 96 (two whitespace words). -/
theorem C9_counterexample :
    (processRawText "hello-world foo." "T").readability ≠
      max 0 (100 - 2 *
        ((specWhitespaceWordCount "hello-world foo." : ℚ) /
          ((splitSentences (preprocessText "hello-world foo.")).length : ℚ))) := by
  have h1 : (processRawText "hello-world foo." "T").readability =
      calculateReadabilityScore
        (tokenizeWords (preprocessText "hello-world foo."))
        (splitSentences (preprocessText "hello-world foo.")) := rfl
  have h2 : (tokenizeWords (preprocessText "hello-world foo.")).length = 3 := by
    decide
  have h3 : (splitSentences (preprocessText "hello-world foo.")).length = 1 := by
    decide
  have h4 : specWhitespaceWordCount "hello-world foo." = 2 := by decide
  rw [h1]
  unfold calculateReadabilityScore
  rw [h2, h3, h4]
  norm_num

/-- C10: with an empty entity list the overall confidence is the undefined
0 / 0 division (the NaN of the source, modelled as none), while any
nonempty entity list produces a defined value — the relationship average
is guarded but the entity average is not. -/
theorem C10_empty_entities_nan (relationships : List Relationship)
    (entities : List Entity) (h : entities ≠ []) :
    calculateOverallConfidence [] relationships = none ∧
      (calculateOverallConfidence entities relationships).isSome = true := by
  constructor
  · simp [calculateOverallConfidence, jsDivOpt]
  · have hlen0 : entities.length ≠ 0 := by
      simpa [List.length_eq_zero] using h
    have hlen : (entities.length : ℚ) ≠ 0 := by exact_mod_cast hlen0
    simp [calculateOverallConfidence, jsDivOpt, hlen]

/-- Witness for C10: the empty ingestion result has NaN confidence while a
one-entity result has a defined one. -/
theorem C10_empty_entities_nan_witness :
    calculateOverallConfidence [] [] = none ∧
      (calculateOverallConfidence [cexA] []).isSome = true :=
  C10_empty_entities_nan [] [cexA] (by simp)

/-- C4 (amended): on a domain with zero ingested pages generateLLMsTxt does
not return a placeholder document — it fails with a KnowledgeGraphError
whose message contains the literal domain name. -/
theorem C4_empty_domain_error (g : GraphStore) (domain : String)
    (options : LlmsOptions) (now : String)
    (h : g.domainPages.filter (fun dp => dp.1 == domain) = []) :
    generateLLMsTxt g domain options now = .error { message :=
      "LLMs.txt generation failed: No content found for domain: " ++
        domain } := by
  have hrec := llmsRecordsFor_eq_nil h
  simp [generateLLMsTxt, hrec, stableSort]

/-- Witness for C4: the empty store has no pages for any domain. -/
theorem C4_empty_domain_error_witness :
    generateLLMsTxt emptyStore "acme.dev" {} "t" = .error { message :=
      "LLMs.txt generation failed: No content found for domain: acme.dev" } := by
  have h := C4_empty_domain_error emptyStore "acme.dev" {} "t" rfl
  rw [h]
  rfl

/-- Counterexample for C4 as frozen: the export on a fresh domain yields
the thrown store error, not a placeholder document. -/
theorem C4_counterexample :
    generateLLMsTxt emptyStore "example.com" {} "2026-01-01T00:00:00.000Z" =
      .error { message :=
        "LLMs.txt generation failed: No content found for domain: example.com" } := by
  rfl

end XoptYmiZ
